import Mathlib

/-!
Verification of the deconz-homekit bridge core: value conversions, identifier
derivation, button event decoding, feedback suppression, update dispatch and
registry construction, modelled as a shallow embedding of the Go source.

Conventions of the embedding:
* Go machine integers are modelled as `ℤ` or `ℕ`; conversions that wrap
  (such as a conversion of a Go int to uint8) carry an explicit `% 256`.
* Go float64 arithmetic on the small integral values that occur here is
  exact in `ℚ`; `math.Round` is modelled by `round : ℚ → ℤ`.  The two only
  disagree on exact halves, which cannot occur at any integer input of the
  functions below (the denominators 51 and 102 are odd), so the model is
  exact on all integer inputs.
* A Go runtime panic (nil map in a type assertion, slice bound violation,
  nil pointer dereference) is modelled by `Option`, with `none` for the
  panic.
* Go maps are modelled as association lists with a first-match lookup.
-/

/-- Lookup in an association list, the model of a Go map read. -/
def lookupKey {α : Type} (k : String) : List (String × α) → Option α
  | [] => none
  | (k2, v) :: rest => if k2 = k then some v else lookupKey k rest

/-- Replace the value stored under an existing key, the model of a Go map
write through a pointer already held (order preserving). -/
def setKey {α : Type} (k : String) (v : α) (l : List (String × α)) :
    List (String × α) :=
  l.map (fun p => if p.1 = k then (p.1, v) else p)

/-- Insertion into a Go map (`m[k] = v`): overwrite if present, add if not. -/
def insertKey {α : Type} (k : String) (v : α) (l : List (String × α)) :
    List (String × α) :=
  if (lookupKey k l).isSome then setKey k v l else l ++ [(k, v)]

/-! ## Value conversion helpers

`SimpleStateMap.ValueToPercent` (object_map.go):
`int(math.Round(value * 100.0 / 255.0))` on a float64 holding the raw value.
-/

/-- From object_map.go: `ValueToPercent` applied to an integral raw value
`v`: `int(math.Round(v * 100.0 / 255.0))`. -/
def ValueToPercent (v : ℤ) : ℤ :=
  round ((v * 100 : ℚ) / 255)

/-- From math.go: `RawToDec(raw) = float64(raw) * 100.0 / 255.0` (exact in
`ℚ` for the 0..255 domain). -/
def RawToDec (raw : ℤ) : ℚ :=
  (raw : ℚ) * 100 / 255

/-- From math.go: `DecToRaw(dec) = uint8(float64(dec) * 255.0 / 100.0)`.
For `dec` in the documented 0..100 domain the float64 quotient is close
enough to the rational value that the uint8 truncation is exactly the
floor, i.e. Nat-style division `dec * 255 / 100`. -/
def DecToRaw (dec : ℕ) : ℕ :=
  dec * 255 / 100

/-- A partial light state write, the model of `deconz.LightState` as sent to
the gateway (only the fields used by the local command paths). -/
structure LightStateCmd where
  On : Option Bool
  Bri : Option ℤ
  Ct : Option ℤ
  deriving Repr, DecidableEq

/-- From light.go, `SetLightBrightness`: the Go expression
`brightness * 255.0 / 100.0` is integer arithmetic (the untyped constants
convert to int), so the value is the truncating integer division
`brightness * 255 / 100`; `math.Round` then acts on an integral float and
is the identity, and the `uint8` conversion wraps modulo 256.  The command
sent is `{On: false}` when the value is 0, else `{On: true, Bri: value}`. -/
def SetLightBrightness (brightness : ℤ) : LightStateCmd :=
  let value : ℤ := (Int.tdiv (brightness * 255) 100) % 256
  if value > 0 then
    { On := some true, Bri := some value, Ct := none }
  else
    { On := some false, Bri := none, Ct := none }

/-- From light.go, `SetLightOn`: sends `{On: on}`. -/
def SetLightOnCmd (b : Bool) : LightStateCmd :=
  { On := some b, Bri := none, Ct := none }

/-- From light.go, `SetLightColorTemperature`: sends `{Ct: mired}`,
the mired value passed through unmodified. -/
def SetLightColorTemperatureCmd (mired : ℤ) : LightStateCmd :=
  { On := none, Bri := none, Ct := some mired }

/-- From math.go: `RawToDeg(raw) = float64((360 / 65535) * raw)`.  Both
operands of `360 / 65535` are untyped integer constants, so the quotient is
the integer constant 0 and the function returns 0 for every input. -/
def RawToDeg (raw : ℕ) : ℚ :=
  (((360 / 65535) * raw : ℕ) : ℚ)

/-- From math.go: `DegToRaw(deg) = uint16(math.Round((65535 / 360) * deg))`.
`65535 / 360` is an integer constant division, giving the constant 182;
the product with the float64 argument is then a float multiplication. -/
def DegToRaw (deg : ℚ) : ℤ :=
  round (((65535 / 360 : ℕ) : ℚ) * deg)

/-! Helper: `ValueToPercent` as pure integer arithmetic. -/

theorem ValueToPercent_eq_intDiv (v : ℤ) :
    ValueToPercent v = (40 * v + 51) / 102 := by
  unfold ValueToPercent
  rw [round_eq]
  have h : (v * 100 : ℚ) / 255 + 1 / 2 = ((40 * v + 51 : ℤ) : ℚ) / ((102 : ℕ) : ℚ) := by
    push_cast
    ring
  rw [h, Rat.floor_intCast_div_natCast]
  norm_num

/-! ## C4, C5, C6: numeric conversion claims -/

/-- C4 counterexample: the claim says the raw value sent by a local
brightness command equals `round(p * 255 / 100)`; at `p = 50` the command
carries raw value 127 (the Go expression truncates: the untyped constants
make `brightness * 255.0 / 100.0` an integer division), while the claimed
formula gives `round(127.5) = 128`. -/
theorem C4_counterexample :
    (SetLightBrightness 50).Bri = some 127 ∧
    round ((50 * 255 : ℚ) / 100) = 128 ∧ (some (127 : ℤ) ≠ some (128 : ℤ)) := by
  refine ⟨by decide, by norm_num [round_eq], by decide⟩

/-- C4 (amended): for raw `r` in 0..255 the exposed percentage is
`round(r * 100 / 255)`; for a percentage `p` in 1..100 a local brightness
command sends raw value `⌊p * 255 / 100⌋` (truncating integer division, not
rounding) together with on = true, and for `p = 0` it sends only off, with
no raw brightness value at all. -/
theorem C4_brightness_conversions (r p : ℤ) (hr0 : 0 ≤ r) (hr : r ≤ 255)
    (hp0 : 1 ≤ p) (hp : p ≤ 100) :
    ValueToPercent r = round ((r * 100 : ℚ) / 255) ∧
    SetLightBrightness p =
      { On := some true, Bri := some ⌊(p * 255 : ℚ) / 100⌋, Ct := none } ∧
    SetLightBrightness 0 = { On := some false, Bri := none, Ct := none } := by
  refine ⟨rfl, ?_, by decide⟩
  have hfloor : ⌊(p * 255 : ℚ) / 100⌋ = (p * 255) / 100 := by
    have h : (p * 255 : ℚ) / 100 = ((p * 255 : ℤ) : ℚ) / ((100 : ℕ) : ℚ) := by
      push_cast; ring
    rw [h, Rat.floor_intCast_div_natCast]
    norm_num
  have htdiv : Int.tdiv (p * 255) 100 = (p * 255) / 100 := by
    rw [Int.tdiv_eq_ediv (by nlinarith) (by norm_num)]
  have hlow : 2 ≤ (p * 255) / 100 := by omega
  have hhigh : (p * 255) / 100 ≤ 255 := by omega
  have hmod : (Int.tdiv (p * 255) 100) % 256 = (p * 255) / 100 := by
    rw [htdiv]; omega
  unfold SetLightBrightness
  rw [hfloor]
  simp only [hmod]
  rw [if_pos (by omega)]

/-- C4 witness. -/
theorem C4_brightness_conversions_witness :
    (0 ≤ (128 : ℤ) ∧ (128 : ℤ) ≤ 255 ∧ 1 ≤ (50 : ℤ) ∧ (50 : ℤ) ≤ 100) ∧
    (ValueToPercent 128 = round ((128 * 100 : ℚ) / 255) ∧
      SetLightBrightness 50 =
        { On := some true, Bri := some ⌊(50 * 255 : ℚ) / 100⌋, Ct := none } ∧
      SetLightBrightness 0 = { On := some false, Bri := none, Ct := none }) :=
  ⟨⟨by decide, by decide, by decide, by decide⟩,
    C4_brightness_conversions 128 50 (by decide) (by decide) (by decide) (by decide)⟩

/-- C5 counterexample: the round trip raw → percentage → raw deviates by 2
units at raw value 14: the exposed percentage is `round(14 * 100 / 255) = 5`
and the command path converts 5 percent back to raw
`⌊5 * 255 / 100⌋ = 12`, a deviation of 2, contradicting the claimed bound
of at most 1. -/
theorem C5_counterexample :
    ValueToPercent 14 = 5 ∧ DecToRaw 5 = 12 ∧
    (Int.tdiv (ValueToPercent 14 * 255) 100) % 256 = 12 ∧
    ¬ ((Int.tdiv (ValueToPercent 14 * 255) 100 % 256) - 14).natAbs ≤ 1 := by
  have h := ValueToPercent_eq_intDiv 14
  refine ⟨by rw [h]; decide, by decide, by rw [h]; decide, by rw [h]; decide⟩

set_option maxRecDepth 10000 in
/-- C5 (amended): for every raw brightness value r in 0..255, converting r
to a percentage (`ValueToPercent`) and back to a raw value along the local
brightness command path (truncating division, modulo 256) yields a value
differing from r by at most 2 units.  `DecToRaw` computes the same
truncating conversion on the 0..100 domain. -/
theorem C5_brightness_roundtrip (r : ℕ) (hr : r < 256) :
    (((Int.tdiv (ValueToPercent r * 255) 100) % 256) - r).natAbs ≤ 2 ∧
    DecToRaw (ValueToPercent r).toNat =
      ((Int.tdiv (ValueToPercent r * 255) 100) % 256).toNat := by
  revert hr
  revert r
  simp only [ValueToPercent_eq_intDiv]
  decide

/-- C5 witness. -/
theorem C5_brightness_roundtrip_witness :
    (128 : ℕ) < 256 ∧
    ((((Int.tdiv (ValueToPercent 128 * 255) 100) % 256) - 128).natAbs ≤ 2 ∧
      DecToRaw (ValueToPercent 128).toNat =
        ((Int.tdiv (ValueToPercent 128 * 255) 100) % 256).toNat) :=
  ⟨by decide, C5_brightness_roundtrip 128 (by decide)⟩

/-- C6: the hue helpers are not the claimed linear scalings.  `RawToDeg`
returns 0 for every input, because `360 / 65535` is a Go integer constant
division yielding 0 — contradicting its own documentation, which promises
the equivalent value in degrees (so raw 65535 should map to 360, not 0).
`DegToRaw` uses the integer constant factor `65535 / 360 = 182`, so 360
degrees map to 65520 rather than `round(360 * 65535 / 360) = 65535`. -/
theorem C6_hue_helpers_diverge :
    (∀ raw : ℕ, RawToDeg raw = 0) ∧
    RawToDeg 65535 = 0 ∧
    (65535 * (360 : ℚ)) / 65535 = 360 ∧
    DegToRaw 360 = 65520 ∧
    round ((360 * (65535 : ℚ)) / 360) = 65535 := by
  refine ⟨?_, ?_, by norm_num, ?_, by norm_num [round_eq]⟩
  · intro raw
    norm_num [RawToDeg]
  · norm_num [RawToDeg]
  · norm_num [DegToRaw, round_eq]

/-! ## C7: identifier derivation (helper.go, uniqueIdToHomeKitId) -/

/-- Model of `strings.ReplaceAll(s, string(c0), "")`: removing every
occurrence of a single character. -/
def removeAll (c0 : Char) (s : String) : String :=
  String.mk (s.data.filter (fun c => c != c0))

/-- From helper.go: the two ReplaceAll passes of `uniqueIdToHomeKitId`,
removing colons and then hyphens. -/
def stripSeparators (s : String) : String :=
  removeAll '-' (removeAll ':' s)

/-- Value of one hexadecimal digit as accepted by `big.Int.SetString` in
base 16 (0-9, a-f, A-F); `none` for any other character. -/
def hexDigitVal (c : Char) : Option ℕ :=
  if '0' ≤ c ∧ c ≤ '9' then some (c.toNat - 48)
  else if 'a' ≤ c ∧ c ≤ 'f' then some (c.toNat - 87)
  else if 'A' ≤ c ∧ c ≤ 'F' then some (c.toNat - 55)
  else none

/-- Digit-by-digit base-16 accumulation, failing on the first invalid
character, as `big.Int.SetString` does. -/
def parseHexDigits : ℕ → List Char → Option ℕ
  | acc, [] => some acc
  | acc, c :: rest =>
    match hexDigitVal c with
    | some d => parseHexDigits (16 * acc + d) rest
    | none => none

/-- Model of `big.Int.SetString(str, 16)` restricted to the non-negative
case: an optional leading plus sign followed by at least one hex digit;
the minus sign cannot occur here because the caller has stripped hyphens. -/
def bigIntSetString (l : List Char) : Option ℕ :=
  match l with
  | [] => none
  | c :: rest =>
    if c = '+' then (if rest = [] then none else parseHexDigits 0 rest)
    else parseHexDigits 0 (c :: rest)

/-- From helper.go: `uniqueIdToHomeKitId` strips colons and hyphens, parses
the remainder as base-16 via `big.Int.SetString` (a failed parse leaves the
big integer at its zero value, and the code ignores the failure), and
returns the (wrapping) `Uint64` value, i.e. the value modulo `2 ^ 64`. -/
def uniqueIdToHomeKitId (id : String) : ℕ :=
  match bigIntSetString (stripSeparators id).data with
  | some n => n % 2 ^ 64
  | none => 0

/-- The base-16 value of a list of hex digits, most significant first,
written independently of the parser (invalid characters count as 0). -/
def natOfHexDigits (l : List Char) : ℕ :=
  l.foldl (fun a c => 16 * a + (hexDigitVal c).getD 0) 0

theorem parseHexDigits_eq_foldl (l : List Char) :
    ∀ acc : ℕ, (∀ c ∈ l, (hexDigitVal c).isSome) →
      parseHexDigits acc l =
        some (l.foldl (fun a c => 16 * a + (hexDigitVal c).getD 0) acc) := by
  induction l with
  | nil => intro acc _; rfl
  | cons c rest ih =>
    intro acc hall
    have hc : (hexDigitVal c).isSome := hall c (List.mem_cons_self c rest)
    obtain ⟨d, hd⟩ := Option.isSome_iff_exists.mp hc
    simp only [parseHexDigits, hd, List.foldl_cons, Option.getD_some]
    exact ih (16 * acc + d) (fun x hx => hall x (List.mem_cons_of_mem c hx))

/-- C7: identifier derivation is pure and deterministic; whenever the
unique identifier, with all colon and hyphen characters removed, is a
nonempty string of hexadecimal digits, the derived identity is the base-16
value of those digits reduced modulo `2 ^ 64`; and the stripping is exactly
a filter dropping every colon and hyphen of the input. -/
theorem C7_deriveId (s : String)
    (hne : (stripSeparators s).data ≠ [])
    (hhex : ∀ c ∈ (stripSeparators s).data, (hexDigitVal c).isSome) :
    uniqueIdToHomeKitId s = natOfHexDigits (stripSeparators s).data % 2 ^ 64 ∧
    stripSeparators s =
      String.mk (s.data.filter (fun c => !(c == ':' || c == '-'))) ∧
    uniqueIdToHomeKitId s = uniqueIdToHomeKitId s := by
  refine ⟨?_, ?_, rfl⟩
  · obtain ⟨c, rest, hl⟩ : ∃ c rest, (stripSeparators s).data = c :: rest := by
      cases h : (stripSeparators s).data with
      | nil => exact absurd h hne
      | cons c rest => exact ⟨c, rest, rfl⟩
    have hc : (hexDigitVal c).isSome := by
      apply hhex; rw [hl]; exact List.mem_cons_self c rest
    have hcp : c ≠ '+' := by
      intro h; rw [h] at hc; simp [hexDigitVal] at hc
    unfold uniqueIdToHomeKitId bigIntSetString
    rw [hl]
    simp only [if_neg hcp]
    rw [parseHexDigits_eq_foldl (c :: rest) 0 (by rw [← hl]; exact hhex)]
    rfl
  · unfold stripSeparators removeAll
    simp only [String.data]
    rw [List.filter_filter]
    congr 1
    apply List.filter_congr
    intro c _
    by_cases h1 : c = ':' <;> by_cases h2 : c = '-' <;>
      simp [h1, h2, bne, beq_eq_false_iff_ne, Bool.and_comm]

/-- C7 witness at a MAC-address-like identifier. -/
theorem C7_deriveId_witness :
    ((stripSeparators "00:21:2e:ff-a0:01").data ≠ [] ∧
      ∀ c ∈ (stripSeparators "00:21:2e:ff-a0:01").data,
        (hexDigitVal c).isSome) ∧
    uniqueIdToHomeKitId "00:21:2e:ff-a0:01" =
      natOfHexDigits (stripSeparators "00:21:2e:ff-a0:01").data % 2 ^ 64 :=
  ⟨⟨by decide, by decide⟩,
    (C7_deriveId "00:21:2e:ff-a0:01" (by decide) (by decide)).1⟩

/-! ## State payloads and the Light adapter (part_003 / object_map.go) -/

/-- A decoded JSON value as it occurs in a deCONZ state or config payload
(the fields used by the bridge are booleans, numbers and strings; numbers
are modelled at the integral values deCONZ sends). -/
inductive JVal where
  | jb (b : Bool)
  | jn (n : ℤ)
  | js (s : String)
  deriving DecidableEq, Repr

/-- An ObjectMap payload: field name to value. -/
abbrev StateMap := List (String × JVal)

/-- From object_map.go `Has`: the key maps to a non-nil value. -/
def mapHas (st : StateMap) (k : String) : Bool :=
  (lookupKey k st).isSome

/-- From object_map.go `ValueToBool`: the Go type assertion `.(bool)`
panics (`none`) unless the value is a boolean. -/
def mapValueToBool (st : StateMap) (k : String) : Option Bool :=
  match lookupKey k st with
  | some (JVal.jb b) => some b
  | _ => none

/-- From object_map.go `ValueToInt`: `int(value.(float64))`. -/
def mapValueToInt (st : StateMap) (k : String) : Option ℤ :=
  match lookupKey k st with
  | some (JVal.jn n) => some n
  | _ => none

/-- From object_map.go `ValueToPercent`:
`int(math.Round(value.(float64) * 100.0 / 255.0))`. -/
def mapValueToPercent (st : StateMap) (k : String) : Option ℤ :=
  match lookupKey k st with
  | some (JVal.jn n) => some (ValueToPercent n)
  | _ => none

/-- The Light service adapter (part_003): the three optional HomeKit
characteristics (a `none` characteristic is one that was not enabled for
this light variant) and the last local change timestamp.  Time is modelled
in nanoseconds, matching Go `time.Time`/`time.Duration`. -/
structure Light where
  On : Option Bool
  Brightness : Option ℤ
  ColorTemperature : Option ℤ
  lastChange : Option ℤ
  deriving DecidableEq, Repr

/-- One second, in nanoseconds (`time.Second`). -/
def timeSecond : ℤ := 1000000000

/-- The unsuppressed part of `Light.UpdateState` (part_003 lines 185-198):
each of on / bri / ct is applied when the payload has the key and the
characteristic is enabled, in source order. -/
def Light.applyFields (l : Light) (st : StateMap) : Option Light :=
  let step1 : Option Light :=
    if mapHas st "on" && l.On.isSome then
      match mapValueToBool st "on" with
      | some b => some { l with On := some b }
      | none => none
    else some l
  match step1 with
  | none => none
  | some l1 =>
    let step2 : Option Light :=
      if mapHas st "bri" && l1.Brightness.isSome then
        match mapValueToPercent st "bri" with
        | some p => some { l1 with Brightness := some p }
        | none => none
      else some l1
    match step2 with
    | none => none
    | some l2 =>
      if mapHas st "ct" && l2.ColorTemperature.isSome then
        match mapValueToInt st "ct" with
        | some v => some { l2 with ColorTemperature := some v }
        | none => none
      else some l2

/-- From part_003 `Light.UpdateState`: if a local change happened less than
one second ago (strict `Before`), return without touching anything;
otherwise apply the payload fields. -/
def Light.UpdateState (l : Light) (now : ℤ) (st : StateMap) : Option Light :=
  match l.lastChange with
  | some t => if now < t + timeSecond then some l else l.applyFields st
  | none => l.applyFields st

/-- From part_003 `Light.updateChange`: record the current time. -/
def Light.updateChange (l : Light) (now : ℤ) : Light :=
  { l with lastChange := some now }

/-- From part_003 `Light.SetOn`: send the on/off command to the gateway and
record the local change time. -/
def Light.SetOn (l : Light) (b : Bool) (now : ℤ) : Light × LightStateCmd :=
  (l.updateChange now, SetLightOnCmd b)

/-- From part_003 `Light.SetBrightness`. -/
def Light.SetBrightness (l : Light) (v : ℤ) (now : ℤ) : Light × LightStateCmd :=
  (l.updateChange now, SetLightBrightness v)

/-- From part_003 `Light.SetColorTemperature`. -/
def Light.SetColorTemperature (l : Light) (v : ℤ) (now : ℤ) :
    Light × LightStateCmd :=
  (l.updateChange now, SetLightColorTemperatureCmd v)

/-- C1: after any of the three local commands issued at time T, an inbound
state update processed at a time in [T, T + 1s) returns with the adapter
record completely unchanged, and an update processed at T + 1s or later is
applied exactly as the normal (unsuppressed) field application. -/
theorem C1_suppression_window (l0 : Light) (T now : ℤ) (st : StateMap)
    (l : Light)
    (hcmd : (∃ b, l = (Light.SetOn l0 b T).1) ∨
      (∃ v, l = (Light.SetBrightness l0 v T).1) ∨
      (∃ v, l = (Light.SetColorTemperature l0 v T).1)) :
    (T ≤ now → now < T + timeSecond → Light.UpdateState l now st = some l) ∧
    (T + timeSecond ≤ now →
      Light.UpdateState l now st = Light.applyFields l st) := by
  have hl : l.lastChange = some T := by
    rcases hcmd with ⟨b, rfl⟩ | ⟨v, rfl⟩ | ⟨v, rfl⟩ <;> rfl
  constructor
  · intro _ h2
    unfold Light.UpdateState
    rw [hl]
    exact if_pos h2
  · intro h
    unfold Light.UpdateState
    rw [hl]
    exact if_neg (by omega)

/-- C1 witness: a dimmable light that was switched on locally at T = 0;
an update carrying bri = 128 at half a second is ignored, the same update
at exactly one second goes through the normal application path. -/
theorem C1_suppression_window_witness :
    (∃ b, (Light.SetOn ⟨some false, some 0, none, none⟩ true 0).1 =
      (Light.SetOn ⟨some false, some 0, none, none⟩ b 0).1) ∧
    Light.UpdateState (Light.SetOn ⟨some false, some 0, none, none⟩ true 0).1
      500000000 [("bri", JVal.jn 128)] =
      some (Light.SetOn ⟨some false, some 0, none, none⟩ true 0).1 ∧
    Light.UpdateState (Light.SetOn ⟨some false, some 0, none, none⟩ true 0).1
      1000000000 [("bri", JVal.jn 128)] =
      Light.applyFields (Light.SetOn ⟨some false, some 0, none, none⟩ true 0).1
        [("bri", JVal.jn 128)] :=
  ⟨⟨true, rfl⟩,
    (C1_suppression_window ⟨some false, some 0, none, none⟩ 0 500000000
        [("bri", JVal.jn 128)] _ (Or.inl ⟨true, rfl⟩)).1 (by decide) (by decide),
    (C1_suppression_window ⟨some false, some 0, none, none⟩ 0 1000000000
        [("bri", JVal.jn 128)] _ (Or.inl ⟨true, rfl⟩)).2 (by decide)⟩

/-! ## C8, C9: update dispatch (accessory_manager.go, ProcessUpdate) -/

/-- A websocket change message (ws.go `Messsage`), restricted to the
fields `ProcessUpdate` reads.  `UniqueID` is a pointer in the source and
may be absent. -/
structure Messsage where
  EventType : String
  RessourceType : String
  UniqueID : Option String
  State : Option StateMap
  Config : Option StateMap

/-- From accessory_manager.go `ProcessUpdate`, over an arbitrary adapter
type with its `UpdateState` / `UpdateConfig` interface methods: filter with
`slices.Contains` on resource type in {lights, sensors}, then on event type
"changed", then dereference the optional unique id (a nil pointer
dereference is the panic `none`), look the service up, and forward the
non-nil payloads, state first, then config. -/
def ProcessUpdate {α : Type} (updState updConfig : α → StateMap → α)
    (services : List (String × α)) (msg : Messsage) :
    Option (List (String × α)) :=
  if msg.RessourceType ∈ (["lights", "sensors"] : List String) then
    if msg.EventType = "changed" then
      match msg.UniqueID with
      | none => none
      | some id =>
        match lookupKey id services with
        | none => some services
        | some a =>
          let a1 := match msg.State with
            | some st => updState a st
            | none => a
          let a2 := match msg.Config with
            | some cf => updConfig a1 cf
            | none => a1
          some (setKey id a2 services)
    else some services
  else some services

/-- C8: a message whose resource type is not lights or sensors, or whose
event type is not "changed", or whose (present) unique identifier is not a
key of the service table, leaves the service table unchanged and raises no
error; and a changed lights/sensors message with a known identifier updates
exactly that service, by the state application followed by the config
application, each only when its payload is present. -/
theorem C8_dispatch_filters {α : Type} (f g : α → StateMap → α)
    (services : List (String × α)) (msg : Messsage) :
    (¬ (msg.RessourceType = "lights" ∨ msg.RessourceType = "sensors") →
      ProcessUpdate f g services msg = some services) ∧
    (msg.EventType ≠ "changed" →
      ProcessUpdate f g services msg = some services) ∧
    (∀ id, msg.UniqueID = some id → lookupKey id services = none →
      ProcessUpdate f g services msg = some services) ∧
    ((msg.RessourceType = "lights" ∨ msg.RessourceType = "sensors") →
      msg.EventType = "changed" →
      ∀ id a, msg.UniqueID = some id → lookupKey id services = some a →
        ProcessUpdate f g services msg =
          some (setKey id
            (match msg.Config with
             | some cf => g (match msg.State with
                             | some st => f a st
                             | none => a) cf
             | none => match msg.State with
                       | some st => f a st
                       | none => a) services)) := by
  have hmem : msg.RessourceType ∈ (["lights", "sensors"] : List String) ↔
      (msg.RessourceType = "lights" ∨ msg.RessourceType = "sensors") := by
    simp
  refine ⟨?_, ?_, ?_, ?_⟩
  · intro h
    unfold ProcessUpdate
    rw [if_neg (fun hm => h (hmem.mp hm))]
  · intro h
    unfold ProcessUpdate
    by_cases hm : msg.RessourceType ∈ (["lights", "sensors"] : List String)
    · rw [if_pos hm, if_neg h]
    · rw [if_neg hm]
  · intro id hid hlk
    unfold ProcessUpdate
    by_cases hm : msg.RessourceType ∈ (["lights", "sensors"] : List String)
    · rw [if_pos hm]
      by_cases he : msg.EventType = "changed"
      · rw [if_pos he, hid]
        simp only [hlk]
      · rw [if_neg he]
    · rw [if_neg hm]
  · intro hrt het id a hid hlk
    unfold ProcessUpdate
    rw [if_pos (hmem.mpr hrt), if_pos het, hid]
    simp only [hlk]

/-- C8 witness: a scene-called message for groups leaves a one-entry table
untouched. -/
theorem C8_dispatch_filters_witness :
    ¬ (("groups" : String) = "lights" ∨ ("groups" : String) = "sensors") ∧
    ProcessUpdate (fun (a : ℤ) _ => a + 1) (fun a _ => a + 2)
      [("id1", (0 : ℤ))]
      { EventType := "scene-called", RessourceType := "groups",
        UniqueID := none, State := none, Config := none } =
      some [("id1", (0 : ℤ))] :=
  ⟨by decide,
    (C8_dispatch_filters (fun (a : ℤ) _ => a + 1) (fun a _ => a + 2)
        [("id1", (0 : ℤ))]
        { EventType := "scene-called", RessourceType := "groups",
          UniqueID := none, State := none, Config := none }).1
      (by decide)⟩

/-- C9: a "changed" message for lights or sensors whose unique identifier
pointer is absent makes `ProcessUpdate` dereference nil and panic (`none`),
for any service table and any payloads. -/
theorem C9_nil_uniqueid_panics {α : Type} (f g : α → StateMap → α)
    (services : List (String × α)) (rt : String) (st cf : Option StateMap)
    (hrt : rt = "lights" ∨ rt = "sensors") :
    ProcessUpdate f g services
      { EventType := "changed", RessourceType := rt,
        UniqueID := none, State := st, Config := cf } = none := by
  unfold ProcessUpdate
  rw [if_pos (by simpa using hrt), if_pos rfl]

/-- C9 witness. -/
theorem C9_nil_uniqueid_panics_witness :
    (("lights" : String) = "lights" ∨ ("lights" : String) = "sensors") ∧
    ProcessUpdate (fun (a : ℤ) _ => a + 1) (fun a _ => a + 2)
      [("id1", (0 : ℤ))]
      { EventType := "changed", RessourceType := "lights",
        UniqueID := none, State := some [("on", JVal.jb true)],
        Config := none } = none :=
  ⟨Or.inl rfl,
    C9_nil_uniqueid_panics (fun (a : ℤ) _ => a + 1) (fun a _ => a + 2)
      [("id1", (0 : ℤ))] "lights" (some [("on", JVal.jb true)]) none
      (Or.inl rfl)⟩

/-! ## C10: full snapshot fetch (device.go, GetAllDevices) -/

/-- From device.go `GetAllDevices`: list all identifiers (an error here
aborts), then fetch each device; an individual fetch failure is logged and
skipped with `continue`, a success is appended. -/
def GetAllDevices {δ : Type} (devicesList : Option (List String))
    (getDevice : String → Option δ) : Option (List δ) :=
  match devicesList with
  | none => none
  | some ids =>
    some (ids.foldl
      (fun acc id =>
        match getDevice id with
        | none => acc
        | some d => acc ++ [d]) [])

theorem getAllDevices_foldl {δ : Type} (getDevice : String → Option δ) :
    ∀ (ids : List String) (acc : List δ),
      ids.foldl
        (fun acc id =>
          match getDevice id with
          | none => acc
          | some d => acc ++ [d]) acc = acc ++ ids.filterMap getDevice := by
  intro ids
  induction ids with
  | nil => intro acc; simp
  | cons id rest ih =>
    intro acc
    cases h : getDevice id with
    | none => simp only [List.foldl_cons, h, List.filterMap_cons, ih]
    | some d =>
      simp only [List.foldl_cons, h, List.filterMap_cons, ih, List.append_assoc,
        List.singleton_append]

/-- C10: the snapshot returned is exactly the devices whose individual
fetch succeeded, in identifier-list order; an individual failure never
makes the overall fetch fail, and the snapshot length equals the number of
identifiers whose fetch succeeded. -/
theorem C10_getAllDevices_partial_failures {δ : Type} (ids : List String)
    (getDevice : String → Option δ) :
    GetAllDevices (some ids) getDevice = some (ids.filterMap getDevice) ∧
    (ids.filterMap getDevice).length =
      ids.countP (fun id => (getDevice id).isSome) ∧
    ∀ d ∈ ids.filterMap getDevice, ∃ id ∈ ids, getDevice id = some d := by
  refine ⟨?_, ?_, ?_⟩
  · show some _ = some _
    rw [getAllDevices_foldl getDevice ids []]
    rfl
  · induction ids with
    | nil => rfl
    | cons id rest ih =>
      cases h : getDevice id with
      | none =>
        simp [List.filterMap_cons, h, List.countP_cons, ih]
      | some d =>
        simp [List.filterMap_cons, h, List.countP_cons, ih]
  · intro d hd
    exact List.mem_filterMap.mp hd

/-! ## C2: button event decoding (sensor_switch.go, device_configuration.go) -/

/-- Decimal digit character, as produced by `fmt.Sprintf` with the decimal
verb. -/
def digitChar10 (d : ℕ) : Char :=
  Char.ofNat (48 + d)

/-- The decimal digit characters of a natural number, most significant
first (`fmt.Sprintf` decimal form). -/
def decChars (n : ℕ) : List Char :=
  if n = 0 then ['0'] else (Nat.digits 10 n).reverse.map digitChar10

/-- Decimal text of a natural number. -/
def decString (n : ℕ) : String :=
  String.mk (decChars n)

/-- Decimal text of a Go int under the decimal verb: optional leading
minus sign. -/
def intDecChars (c : ℤ) : List Char :=
  if c < 0 then '-' :: decChars (-c).toNat else decChars c.toNat

/-- `fmt.Sprintf` decimal form of a Go int. -/
def intDecString (c : ℤ) : String :=
  String.mk (intDecChars c)

/-- From device_configuration.go `SplitEventId`: the last 3 bytes are the
event code, the rest the button number.  For a string shorter than 3 the
Go slice expression `event[:len(event)-3]` has a negative bound and
panics (`none`). -/
def SplitEventId (event : String) : Option (String × String) :=
  if event.data.length < 3 then none
  else
    some (String.mk (event.data.take (event.data.length - 3)),
      String.mk (event.data.drop (event.data.length - 3)))

/-- From device_configuration.go: one button of a model descriptor; the
event map maps decimal event codes to press type strings. -/
structure ButtonConfiguration where
  Name : String
  EventMap : List (String × String)
  deriving DecidableEq, Repr

/-- HomeKit `ProgrammableSwitchEvent` characteristic values. -/
def ProgrammableSwitchEventSinglePress : ℤ := 0

/-- HomeKit double press value. -/
def ProgrammableSwitchEventDoublePress : ℤ := 1

/-- HomeKit long press value. -/
def ProgrammableSwitchEventLongPress : ℤ := 2

/-- The switch adapter (sensor_switch.go `SwitchDevice`): per button id,
the exposed press-type value of its stateless programmable switch service
(`none` until a press is delivered), and per button id its
`ButtonConfiguration`. -/
structure SwitchDevice where
  services : List (String × Option ℤ)
  configs : List (String × ButtonConfiguration)
  deriving DecidableEq, Repr

/-- `sensor.services[deviceId].ProgrammableSwitchEvent.SetValue(v)`: a nil
service (button id not in the services map) is a nil pointer dereference,
i.e. a panic. -/
def setButton (s : SwitchDevice) (id : String) (v : ℤ) : Option SwitchDevice :=
  match lookupKey id s.services with
  | none => none
  | some _ => some { s with services := setKey id (some v) s.services }

/-- `sensor.configs[deviceId].EventMap[event]`: a missing button id gives
the zero `ButtonConfiguration` whose nil event map yields the empty
string, which matches no press type; both misses are `none` here. -/
def pressLookup (s : SwitchDevice) (deviceId event : String) : Option String :=
  match lookupKey deviceId s.configs with
  | some bc => lookupKey event bc.EventMap
  | none => none

/-- From sensor_switch.go `SwitchDevice.UpdateState`: on a state payload
carrying "buttonevent", format the int value in decimal, split off the
3-digit suffix, look the full code up in the event map of the button named
by the remaining decimal text, and set that button on a match; unmatched
codes fall through without touching anything. -/
def SwitchDevice.UpdateState (s : SwitchDevice) (st : Option StateMap) :
    Option SwitchDevice :=
  match st with
  | none => some s
  | some state =>
    if mapHas state "buttonevent" then
      match mapValueToInt state "buttonevent" with
      | none => none
      | some c =>
        match SplitEventId (intDecString c) with
        | none => none
        | some (deviceId, _) =>
          match pressLookup s deviceId (intDecString c) with
          | some p =>
            if p = "SINGLE_PRESS" then
              setButton s deviceId ProgrammableSwitchEventSinglePress
            else if p = "DOUBLE_PRESS" then
              setButton s deviceId ProgrammableSwitchEventDoublePress
            else if p = "LONG_PRESS" then
              setButton s deviceId ProgrammableSwitchEventLongPress
            else some s
          | none => some s
    else some s

/-- From sensor_switch.go `addButton`: read one event id of the button
(the Go code takes an arbitrary key of the map and panics on an empty
map), split it to find the button number, and store the fresh service and
the configuration under that number. -/
def addButton (s : SwitchDevice) (bc : ButtonConfiguration) :
    Option SwitchDevice :=
  match bc.EventMap with
  | [] => none
  | (someEventId, _) :: _ =>
    match SplitEventId someEventId with
    | none => none
    | some (buttonNumber, _) =>
      some { services := insertKey buttonNumber none s.services,
             configs := insertKey buttonNumber bc s.configs }

/-! Association list lemmas. -/

theorem lookupKey_mem {α : Type} (k : String) (v : α) :
    ∀ l : List (String × α), lookupKey k l = some v → (k, v) ∈ l := by
  intro l
  induction l with
  | nil => intro h; exact absurd h (by simp [lookupKey])
  | cons p rest ih =>
    intro h
    obtain ⟨k2, w⟩ := p
    by_cases hk : k2 = k
    · subst hk
      simp only [lookupKey, if_pos rfl] at h
      obtain rfl : w = v := Option.some_injective _ h
      exact List.mem_cons_self _ _
    · simp only [lookupKey, if_neg hk] at h
      exact List.mem_cons_of_mem _ (ih h)

theorem lookupKey_eq_none_of_ne {α : Type} (k : String) :
    ∀ l : List (String × α), (∀ p ∈ l, p.1 ≠ k) → lookupKey k l = none := by
  intro l
  induction l with
  | nil => intro _; rfl
  | cons p rest ih =>
    intro h
    obtain ⟨k2, w⟩ := p
    have hne : k2 ≠ k := h (k2, w) (List.mem_cons_self _ _)
    simp only [lookupKey, if_neg hne]
    exact ih (fun q hq => h q (List.mem_cons_of_mem _ hq))

theorem lookupKey_setKey_ne {α : Type} (k k2 : String) (v : α)
    (h : k2 ≠ k) : ∀ l, lookupKey k2 (setKey k v l) = lookupKey k2 l := by
  intro l
  induction l with
  | nil => rfl
  | cons p rest ih =>
    obtain ⟨k3, w⟩ := p
    show lookupKey k2 ((if k3 = k then (k3, v) else (k3, w)) :: setKey k v rest) =
      lookupKey k2 ((k3, w) :: rest)
    by_cases hk : k3 = k
    · rw [if_pos hk]
      show (if k3 = k2 then some v else lookupKey k2 (setKey k v rest)) =
        (if k3 = k2 then some w else lookupKey k2 rest)
      have h32 : ¬ k3 = k2 := fun hh => h (hh.symm.trans hk)
      rw [if_neg h32, if_neg h32, ih]
    · rw [if_neg hk]
      show (if k3 = k2 then some w else lookupKey k2 (setKey k v rest)) =
        (if k3 = k2 then some w else lookupKey k2 rest)
      by_cases h32 : k3 = k2
      · rw [if_pos h32, if_pos h32]
      · rw [if_neg h32, if_neg h32, ih]

theorem lookupKey_setKey_self {α : Type} (k : String) (v : α) :
    ∀ l : List (String × α), (lookupKey k l).isSome →
      lookupKey k (setKey k v l) = some v := by
  intro l
  induction l with
  | nil => intro h; exact absurd h (by simp [lookupKey])
  | cons p rest ih =>
    intro h
    obtain ⟨k3, w⟩ := p
    show lookupKey k ((if k3 = k then (k3, v) else (k3, w)) :: setKey k v rest) =
      some v
    by_cases hk : k3 = k
    · rw [if_pos hk]
      show (if k3 = k then some v else lookupKey k (setKey k v rest)) = some v
      rw [if_pos hk]
    · rw [if_neg hk]
      show (if k3 = k then some w else lookupKey k (setKey k v rest)) = some v
      rw [if_neg hk]
      apply ih
      have h2 : lookupKey k ((k3, w) :: rest) = lookupKey k rest := by
        show (if k3 = k then some w else lookupKey k rest) = lookupKey k rest
        rw [if_neg hk]
      rw [h2] at h
      exact h

/-! Decimal representation lemmas. -/

theorem decChars_ne_nil (n : ℕ) : decChars n ≠ [] := by
  unfold decChars
  by_cases h : n = 0
  · rw [if_pos h]; exact List.cons_ne_nil _ _
  · rw [if_neg h]
    intro hc
    have hd : Nat.digits 10 n = [] := by
      have hlen := congrArg List.length hc
      simp only [List.length_map, List.length_reverse, List.length_nil] at hlen
      exact List.eq_nil_of_length_eq_zero hlen
    rw [Nat.digits_eq_nil_iff_eq_zero] at hd
    exact h hd

theorem decChars_all_digits (n : ℕ) :
    ∀ ch ∈ decChars n, ∃ d, d < 10 ∧ ch = digitChar10 d := by
  intro ch hch
  unfold decChars at hch
  by_cases h : n = 0
  · rw [if_pos h] at hch
    refine ⟨0, by norm_num, ?_⟩
    simp at hch
    rw [hch]
    rfl
  · rw [if_neg h] at hch
    obtain ⟨d, hd, rfl⟩ := List.mem_map.mp hch
    refine ⟨d, ?_, rfl⟩
    exact Nat.digits_lt_base (by norm_num) (List.mem_reverse.mp hd)

theorem digitChar10_ne_dash : ∀ d, d < 10 → digitChar10 d ≠ '-' := by
  decide

theorem decChars_length_le_three (n : ℕ) (h : n < 1000) :
    (decChars n).length ≤ 3 := by
  unfold decChars
  by_cases h0 : n = 0
  · rw [if_pos h0]; norm_num
  · rw [if_neg h0]
    rw [List.length_map, List.length_reverse]
    by_contra hc
    push_neg at hc
    have hle : 10 ^ (Nat.digits 10 n).length ≤ 10 * n :=
      Nat.base_pow_length_digits_le 10 n (by norm_num) h0
    have h4 : (4 : ℕ) ≤ (Nat.digits 10 n).length := hc
    have : (10 : ℕ) ^ 4 ≤ 10 ^ (Nat.digits 10 n).length :=
      Nat.pow_le_pow_right (by norm_num) h4
    omega

theorem decChars_length_ge_four (n : ℕ) (h : 1000 ≤ n) :
    4 ≤ (decChars n).length := by
  unfold decChars
  have h0 : n ≠ 0 := by omega
  rw [if_neg h0, List.length_map, List.length_reverse]
  by_contra hc
  push_neg at hc
  have hlt : n < 10 ^ (Nat.digits 10 n).length :=
    Nat.lt_base_pow_length_digits (by norm_num)
  have h3 : (Nat.digits 10 n).length ≤ 3 := by omega
  have : (10 : ℕ) ^ (Nat.digits 10 n).length ≤ 10 ^ 3 :=
    Nat.pow_le_pow_right (by norm_num) h3
  omega

/-! Evaluation lemmas for the switch update path. -/

theorem switchUpdate_eval (s : SwitchDevice) (state : StateMap) (c : ℤ)
    (hev : lookupKey "buttonevent" state = some (JVal.jn c)) :
    SwitchDevice.UpdateState s (some state) =
      match SplitEventId (intDecString c) with
      | none => none
      | some (deviceId, _) =>
        match pressLookup s deviceId (intDecString c) with
        | some p =>
          if p = "SINGLE_PRESS" then
            setButton s deviceId ProgrammableSwitchEventSinglePress
          else if p = "DOUBLE_PRESS" then
            setButton s deviceId ProgrammableSwitchEventDoublePress
          else if p = "LONG_PRESS" then
            setButton s deviceId ProgrammableSwitchEventLongPress
          else some s
        | none => some s := by
  have h1 : mapHas state "buttonevent" = true := by
    unfold mapHas
    rw [hev]
    rfl
  have h2 : mapValueToInt state "buttonevent" = some c := by
    unfold mapValueToInt
    rw [hev]
  simp only [SwitchDevice.UpdateState]
  rw [if_pos h1, h2]

/-- The button number text that the 3-digit split assigns to a decimal
button event value. -/
def buttonPrefix (c : ℤ) : String :=
  String.mk ((intDecChars c).take ((intDecChars c).length - 3))

theorem SplitEventId_intDec_none (c : ℤ)
    (h : (intDecChars c).length < 3) :
    SplitEventId (intDecString c) = none := by
  unfold SplitEventId intDecString
  show (if (intDecChars c).length < 3 then none else _) = none
  rw [if_pos h]

theorem SplitEventId_intDec_some (c : ℤ)
    (h : ¬ (intDecChars c).length < 3) :
    SplitEventId (intDecString c) =
      some (buttonPrefix c,
        String.mk ((intDecChars c).drop ((intDecChars c).length - 3))) := by
  unfold SplitEventId intDecString buttonPrefix
  show (if (intDecChars c).length < 3 then none else
    some (String.mk ((intDecChars c).take ((intDecChars c).length - 3)),
      String.mk ((intDecChars c).drop ((intDecChars c).length - 3)))) = _
  rw [if_neg h]

/-- C2: with the configuration shape the program builds (all event codes
are the decimal text of a number at least 1000, and every configured
button id has its service), a button event value `c` at least 1000 sets at
most the one button named by the decimal prefix, to exactly the press type
its event map assigns to the full decimal text (or nothing when the code
is unmapped), while a value below 1000 either panics on the 3-digit split
(fewer than 3 characters) or returns with the adapter unchanged: no button
endpoint is ever mutated. -/
theorem C2_button_event_threshold (s : SwitchDevice) (state : StateMap)
    (c : ℤ)
    (hwf : ∀ p ∈ s.configs, ∀ q ∈ p.2.EventMap,
      ∃ n : ℕ, 1000 ≤ n ∧ q.1 = decString n)
    (hks : ∀ p ∈ s.configs, (lookupKey p.1 s.services).isSome)
    (hev : lookupKey "buttonevent" state = some (JVal.jn c)) :
    (1000 ≤ c →
      ∃ s2, SwitchDevice.UpdateState s (some state) = some s2 ∧
        s2.configs = s.configs ∧
        (∀ k, k ≠ buttonPrefix c →
          lookupKey k s2.services = lookupKey k s.services) ∧
        (∀ p, pressLookup s (buttonPrefix c) (intDecString c) = some p →
          ((p = "SINGLE_PRESS" → lookupKey (buttonPrefix c) s2.services =
              some (some ProgrammableSwitchEventSinglePress)) ∧
           (p = "DOUBLE_PRESS" → lookupKey (buttonPrefix c) s2.services =
              some (some ProgrammableSwitchEventDoublePress)) ∧
           (p = "LONG_PRESS" → lookupKey (buttonPrefix c) s2.services =
              some (some ProgrammableSwitchEventLongPress)) ∧
           (p ≠ "SINGLE_PRESS" → p ≠ "DOUBLE_PRESS" → p ≠ "LONG_PRESS" →
              s2 = s))) ∧
        (pressLookup s (buttonPrefix c) (intDecString c) = none → s2 = s)) ∧
    (c < 1000 →
      SwitchDevice.UpdateState s (some state) = none ∨
      SwitchDevice.UpdateState s (some state) = some s) := by
  have heval := switchUpdate_eval s state c hev
  constructor
  · intro hc
    have hchars : intDecChars c = decChars c.toNat := by
      unfold intDecChars
      rw [if_neg (by omega)]
    have hlen : ¬ (intDecChars c).length < 3 := by
      rw [hchars]
      have := decChars_length_ge_four c.toNat (by omega)
      omega
    simp only [SplitEventId_intDec_some c hlen] at heval
    cases hpl : pressLookup s (buttonPrefix c) (intDecString c) with
    | none =>
      simp only [hpl] at heval
      refine ⟨s, heval, rfl, fun k _ => rfl, ?_, fun _ => rfl⟩
      intro p hp
      exact Option.noConfusion hp
    | some p =>
      simp only [hpl] at heval
      have hbc : ∃ bc, lookupKey (buttonPrefix c) s.configs = some bc := by
        unfold pressLookup at hpl
        cases hcfg : lookupKey (buttonPrefix c) s.configs with
        | none =>
          simp only [hcfg] at hpl
          exact Option.noConfusion hpl
        | some bc => exact ⟨bc, rfl⟩
      obtain ⟨bc, hcfg⟩ := hbc
      have hsv : (lookupKey (buttonPrefix c) s.services).isSome :=
        hks (buttonPrefix c, bc) (lookupKey_mem _ _ _ hcfg)
      have hset : ∀ v : ℤ, ∃ s2,
          setButton s (buttonPrefix c) v = some s2 ∧
          s2.configs = s.configs ∧
          (∀ k, k ≠ buttonPrefix c →
            lookupKey k s2.services = lookupKey k s.services) ∧
          lookupKey (buttonPrefix c) s2.services = some (some v) := by
        intro v
        obtain ⟨w, hw⟩ := Option.isSome_iff_exists.mp hsv
        refine ⟨⟨setKey (buttonPrefix c) (some v) s.services, s.configs⟩, ?_,
          rfl, ?_, ?_⟩
        · unfold setButton
          rw [hw]
        · intro k hk
          exact lookupKey_setKey_ne _ _ _ hk _
        · exact lookupKey_setKey_self _ _ _ hsv
      by_cases hp1 : p = "SINGLE_PRESS"
      · rw [if_pos hp1] at heval
        obtain ⟨s2, hs2, hcf2, hne2, heq2⟩ :=
          hset ProgrammableSwitchEventSinglePress
        rw [hs2] at heval
        refine ⟨s2, heval, hcf2, hne2, ?_, ?_⟩
        · intro p2 hp2
          obtain rfl : p = p2 := Option.some_injective _ hp2
          refine ⟨fun _ => heq2, ?_, ?_, fun h1 _ _ => absurd hp1 h1⟩
          · intro hd; rw [hp1] at hd; exact absurd hd (by decide)
          · intro hd; rw [hp1] at hd; exact absurd hd (by decide)
        · intro hnone
          exact Option.noConfusion hnone
      · rw [if_neg hp1] at heval
        by_cases hp2 : p = "DOUBLE_PRESS"
        · rw [if_pos hp2] at heval
          obtain ⟨s2, hs2, hcf2, hne2, heq2⟩ :=
            hset ProgrammableSwitchEventDoublePress
          rw [hs2] at heval
          refine ⟨s2, heval, hcf2, hne2, ?_, ?_⟩
          · intro p3 hp3
            obtain rfl : p = p3 := Option.some_injective _ hp3
            refine ⟨?_, fun _ => heq2, ?_, fun _ h2 _ => absurd hp2 h2⟩
            · intro hd; rw [hp2] at hd; exact absurd hd (by decide)
            · intro hd; rw [hp2] at hd; exact absurd hd (by decide)
          · intro hnone
            exact Option.noConfusion hnone
        · rw [if_neg hp2] at heval
          by_cases hp3 : p = "LONG_PRESS"
          · rw [if_pos hp3] at heval
            obtain ⟨s2, hs2, hcf2, hne2, heq2⟩ :=
              hset ProgrammableSwitchEventLongPress
            rw [hs2] at heval
            refine ⟨s2, heval, hcf2, hne2, ?_, ?_⟩
            · intro p4 hp4
              obtain rfl : p = p4 := Option.some_injective _ hp4
              refine ⟨?_, ?_, fun _ => heq2, fun _ _ h3 => absurd hp3 h3⟩
              · intro hd; rw [hp3] at hd; exact absurd hd (by decide)
              · intro hd; rw [hp3] at hd; exact absurd hd (by decide)
            · intro hnone
              exact Option.noConfusion hnone
          · rw [if_neg hp3] at heval
            refine ⟨s, heval, rfl, fun k _ => rfl, ?_, fun _ => rfl⟩
            intro p5 hp5
            obtain rfl : p = p5 := Option.some_injective _ hp5
            exact ⟨fun h => absurd h hp1, fun h => absurd h hp2,
              fun h => absurd h hp3, fun _ _ _ => rfl⟩
  · intro hc
    have hkeyne : ∀ n : ℕ, 1000 ≤ n → decString n ≠ intDecString c := by
      intro n hn heq
      unfold decString intDecString at heq
      injection heq with hl
      by_cases hcn : c < 0
      · have hch : intDecChars c = '-' :: decChars (-c).toNat := by
          unfold intDecChars
          rw [if_pos hcn]
        rw [hch] at hl
        have hdash : '-' ∈ decChars n := by
          rw [hl]
          exact List.mem_cons_self _ _
        obtain ⟨d, hd, hchd⟩ := decChars_all_digits n '-' hdash
        exact digitChar10_ne_dash d hd hchd.symm
      · have hch : intDecChars c = decChars c.toNat := by
          unfold intDecChars
          rw [if_neg hcn]
        rw [hch] at hl
        have h4 : 4 ≤ (decChars n).length := decChars_length_ge_four n hn
        have h3 : (decChars c.toNat).length ≤ 3 :=
          decChars_length_le_three c.toNat (by omega)
        rw [hl] at h4
        omega
    by_cases hlt : (intDecChars c).length < 3
    · left
      simp only [SplitEventId_intDec_none c hlt] at heval
      exact heval
    · right
      simp only [SplitEventId_intDec_some c hlt] at heval
      have hplnone :
          pressLookup s (buttonPrefix c) (intDecString c) = none := by
        unfold pressLookup
        cases hcfg : lookupKey (buttonPrefix c) s.configs with
        | none => rfl
        | some bc =>
          apply lookupKey_eq_none_of_ne
          intro q hq
          obtain ⟨n, hn, hq1⟩ := hwf (buttonPrefix c, bc)
            (lookupKey_mem _ _ _ hcfg) q hq
          rw [hq1]
          exact hkeyne n hn
      simp only [hplnone] at heval
      exact heval

/-! C2 witness material. -/

/-- A one-button switch adapter as built from a generator-produced
configuration. -/
def swExample : SwitchDevice :=
  ⟨[("1", none)],
   [("1", ⟨"Button 1", [("1001", "SINGLE_PRESS"), ("1002", "LONG_PRESS")]⟩)]⟩

/-- A state payload carrying button event 1001. -/
def stExample : StateMap := [("buttonevent", JVal.jn 1001)]

theorem decString_1001 : decString 1001 = "1001" := by
  unfold decString decChars
  rw [if_neg (by norm_num), show Nat.digits 10 1001 = [1, 0, 0, 1] by simp]
  decide

theorem decString_1002 : decString 1002 = "1002" := by
  unfold decString decChars
  rw [if_neg (by norm_num), show Nat.digits 10 1002 = [2, 0, 0, 1] by simp]
  decide

/-- C2 witness: event 1001 on the example adapter. -/
theorem C2_button_event_threshold_witness :
    (1000 ≤ (1001 : ℤ)) ∧
    (∃ s2, SwitchDevice.UpdateState swExample (some stExample) = some s2 ∧
      s2.configs = swExample.configs ∧
      (∀ k, k ≠ buttonPrefix 1001 →
        lookupKey k s2.services = lookupKey k swExample.services) ∧
      (∀ p, pressLookup swExample (buttonPrefix 1001) (intDecString 1001) =
          some p →
        ((p = "SINGLE_PRESS" →
            lookupKey (buttonPrefix 1001) s2.services =
              some (some ProgrammableSwitchEventSinglePress)) ∧
         (p = "DOUBLE_PRESS" →
            lookupKey (buttonPrefix 1001) s2.services =
              some (some ProgrammableSwitchEventDoublePress)) ∧
         (p = "LONG_PRESS" →
            lookupKey (buttonPrefix 1001) s2.services =
              some (some ProgrammableSwitchEventLongPress)) ∧
         (p ≠ "SINGLE_PRESS" → p ≠ "DOUBLE_PRESS" → p ≠ "LONG_PRESS" →
            s2 = swExample))) ∧
      (pressLookup swExample (buttonPrefix 1001) (intDecString 1001) = none →
        s2 = swExample)) :=
  ⟨by norm_num,
    (C2_button_event_threshold swExample stExample 1001
      (by
        intro p hp q hq
        simp only [swExample, List.mem_singleton] at hp
        subst hp
        simp only [List.mem_cons, List.mem_singleton] at hq
        rcases hq with rfl | rfl | hfalse
        · exact ⟨1001, by norm_num, decString_1001.symm⟩
        · exact ⟨1002, by norm_num, decString_1002.symm⟩
        · exact absurd hfalse (by simp))
      (by decide)
      (by decide)).1 (by norm_num)⟩

/-! ## C3: device construction and registration (part_003 NewDevice,
accessory_manager.go NewAccessoryManager) -/

/-- Device type constant (light.go constants section). -/
def DimmableLightDevice : String := "Dimmable light"

/-- Device type constant. -/
def ColorTemperatureLightDevice : String := "Color temperature light"

/-- Device type constant. -/
def PresenceSensorDevice : String := "ZHAPresence"

/-- Device type constant. -/
def OpenCloseSensorDevice : String := "ZHAOpenClose"

/-- Device type constant. -/
def OnOffOutputDevice : String := "On/Off output"

/-- Device type constant. -/
def OnOffPlugInUnitDevice : String := "On/Off plug-in unit"

/-- Device type constant. -/
def SmartPlugDevice : String := "Smart plug"

/-- Device type constant. -/
def OnOffSwitchDevice : String := "On/Off switch"

/-- Device type constant. -/
def OnOffLightDevice : String := "On/Off light"

/-- Device type constant. -/
def OnOffLightSwitchDevice : String := "On/Off light switch"

/-- Device type constant (the `SwitchDevice` tag "ZHASwitch"). -/
def SwitchDeviceTag : String := "ZHASwitch"

/-- Device type constant. -/
def WaterDevice : String := "ZHAWater"

/-- Device type constant. -/
def DimmablePlugInUnitDevice : String := "Dimmable plug-in unit"

/-- A deCONZ subdevice snapshot (device.go `Subdevice`); `Type` is a
reserved word in Lean, so the capability tag is `DeviceType`. -/
structure Subdevice where
  DeviceType : String
  UniqueId : String
  State : StateMap
  Config : StateMap
  deriving DecidableEq, Repr

/-- A deCONZ device snapshot (device.go `Device`), metadata fields other
than the identifier omitted. -/
structure DeconzDevice where
  UniqueId : String
  Subdevices : List Subdevice
  deriving DecidableEq, Repr

/-- The sensor detail record, reduced to the model identifier consulted by
`NewSwitch`. -/
structure Sensor where
  ModelId : String
  deriving DecidableEq, Repr

/-- A per-model descriptor (device_configuration.go), reduced to its
button list; the schema and metadata fields play no role at runtime. -/
structure DeviceConfiguration where
  Buttons : List ButtonConfiguration
  deriving DecidableEq, Repr

/-- The external collaborators consulted during construction: the gateway
client lookup `GetSensor` and the result of `LoadFromDirectory` keyed by
model identifier (`none` models the directory read failing). -/
structure Env where
  getSensor : String → Option Sensor
  deviceConfigs : Option (List (String × DeviceConfiguration))

/-- A constructed service adapter (part_003 `DeviceService` variants). -/
inductive Adapter where
  | light (l : Light)
  | switchDev (sw : SwitchDevice)
  | openClose (isOpen : Bool)
  | presence
  | water (leak : Bool)
  deriving DecidableEq, Repr

/-- Guarded optional boolean field read: the source pattern
`state.Has(k) && ch != nil` followed by `state.ValueToBool(k)`; panics
only on a present non-boolean value. -/
def checkGuardedBool (st : StateMap) (k : String) : Option Unit :=
  if mapHas st k then
    match mapValueToBool st k with
    | none => none
    | some _ => some ()
  else some ()

/-- Guarded optional integer field read. -/
def checkGuardedInt (st : StateMap) (k : String) : Option Unit :=
  if mapHas st k then
    match mapValueToInt st k with
    | none => none
    | some _ => some ()
  else some ()

/-- From part_003 `NewOnOffLight` / `NewDimmableLight` /
`NewColorTemperatureLight` / `NewOnOffPlugDevice`: enable the requested
characteristics and apply the initial state (the fresh adapter has no
last-change timestamp, so `UpdateState` is the plain field application). -/
def newLightAdapter (enableBri enableCt : Bool) (sub : Subdevice) :
    Option (Except String Adapter) :=
  let l0 : Light :=
    { On := some false,
      Brightness := if enableBri then some 0 else none,
      ColorTemperature := if enableCt then some 0 else none,
      lastChange := none }
  match l0.applyFields sub.State with
  | none => none
  | some l => some (Except.ok (Adapter.light l))

/-- From sensor_open_close.go `NewOpenCloseSensor`: reads "open"
unconditionally (panic on a missing or non-boolean value), then the
guarded battery fields; never returns an error. -/
def NewOpenCloseSensor (sub : Subdevice) : Option (Except String Adapter) :=
  match mapValueToBool sub.State "open" with
  | none => none
  | some v =>
    match checkGuardedBool sub.State "lowbattery" with
    | none => none
    | some _ =>
      match checkGuardedInt sub.Config "battery" with
      | none => none
      | some _ => some (Except.ok (Adapter.openClose v))

/-- From part_002 `NewWaterSensor`: reads "water" unconditionally, then
the guarded battery fields; never returns an error. -/
def NewWaterSensor (sub : Subdevice) : Option (Except String Adapter) :=
  match mapValueToBool sub.State "water" with
  | none => none
  | some v =>
    match checkGuardedBool sub.State "lowbattery" with
    | none => none
    | some _ =>
      match checkGuardedInt sub.Config "battery" with
      | none => none
      | some _ => some (Except.ok (Adapter.water v))

/-- Modelled from the spec: `NewPresenceSensor` lives in a source file
that is not under src (only its caller in `addSubdevice` is); per the
spec, the motion sensor variant is a service adapter over a boolean
exposed field whose constructor succeeds unconditionally from the
snapshot. -/
def NewPresenceSensor (_sub : Subdevice) : Option (Except String Adapter) :=
  some (Except.ok Adapter.presence)

/-- Fold of `addButton` over the configured buttons of a model
(sensor_switch.go `NewSwitch` loop). -/
def buildButtons : List ButtonConfiguration → SwitchDevice →
    Option SwitchDevice
  | [], s => some s
  | bc :: rest, s =>
    match addButton s bc with
    | none => none
    | some s2 => buildButtons rest s2

/-- From sensor_switch.go `NewSwitch`: fetch the sensor details, load the
per-model descriptors, find this model, then add one service per button;
each failure before the button loop is an error returned to the caller.
The initial `UpdateState(nil, ...)` call is a no-op because its state
payload is nil. -/
def NewSwitch (env : Env) (sub : Subdevice) : Option (Except String Adapter) :=
  match env.getSensor sub.UniqueId with
  | none => some (Except.error "GetSensor failed")
  | some info =>
    match env.deviceConfigs with
    | none => some (Except.error "error loading device configurations")
    | some cfgs =>
      match lookupKey info.ModelId cfgs with
      | none => some (Except.error "could not find device")
      | some dc =>
        match buildButtons dc.Buttons ⟨[], []⟩ with
        | none => none
        | some sw => some (Except.ok (Adapter.switchDev sw))

/-- From part_003 `addSubdevice`: dispatch on the capability tag; an
unrecognized tag is the non-fatal "not implemented" error. -/
def addSubdevice (env : Env) (sub : Subdevice) :
    Option (Except String Adapter) :=
  if sub.DeviceType = DimmableLightDevice then newLightAdapter true false sub
  else if sub.DeviceType = ColorTemperatureLightDevice then
    newLightAdapter true true sub
  else if sub.DeviceType = PresenceSensorDevice then NewPresenceSensor sub
  else if sub.DeviceType = OpenCloseSensorDevice then NewOpenCloseSensor sub
  else if sub.DeviceType = OnOffOutputDevice then
    newLightAdapter false false sub
  else if sub.DeviceType = OnOffPlugInUnitDevice then
    newLightAdapter false false sub
  else if sub.DeviceType = SmartPlugDevice then newLightAdapter false false sub
  else if sub.DeviceType = OnOffSwitchDevice then
    newLightAdapter false false sub
  else if sub.DeviceType = OnOffLightDevice then newLightAdapter false false sub
  else if sub.DeviceType = OnOffLightSwitchDevice then
    newLightAdapter false false sub
  else if sub.DeviceType = SwitchDeviceTag then NewSwitch env sub
  else if sub.DeviceType = WaterDevice then NewWaterSensor sub
  else if sub.DeviceType = DimmablePlugInUnitDevice then
    newLightAdapter true false sub
  else some (Except.error "not implemented")

/-- The common build loop: construct each item, skip errors (they are
logged), register successes in the identifier-keyed map, and propagate a
panic.  `NewDevice` runs it over subdevices, `NewAccessoryManager` over
devices. -/
def registerAll {α β : Type} (mk : β → Option (Except String α))
    (key : β → String) : List β → List (String × α) →
    Option (List (String × α))
  | [], acc => some acc
  | b :: rest, acc =>
    match mk b with
    | none => none
    | some (Except.error _) => registerAll mk key rest acc
    | some (Except.ok a) => registerAll mk key rest (insertKey (key b) a acc)

/-- The device adapter (part_003 `Device`): identity and the map from
subdevice identifier to service adapter. -/
structure Device where
  ID : String
  Services : List (String × Adapter)
  deriving DecidableEq, Repr

/-- From part_003 `NewDevice`: build all subdevice services (failures are
logged and skipped); a device that ends with no services is an error,
otherwise the adapter record is returned. -/
def NewDevice (env : Env) (cfg : DeconzDevice) : Option (Except String Device) :=
  match registerAll (addSubdevice env) Subdevice.UniqueId cfg.Subdevices [] with
  | none => none
  | some svc =>
    some (if svc = [] then Except.error "no services found"
      else Except.ok ⟨cfg.UniqueId, svc⟩)

/-- From accessory_manager.go `NewAccessoryManager`: devices whose
construction fails are skipped; the rest are registered under their
unique identifier. -/
def NewAccessoryManager (env : Env) (devices : List DeconzDevice) :
    Option (List (String × Device)) :=
  registerAll (NewDevice env) DeconzDevice.UniqueId devices []

/-- A subdevice whose construction succeeds with an adapter. -/
def subdeviceOkB (env : Env) (sub : Subdevice) : Bool :=
  match addSubdevice env sub with
  | some (Except.ok _) => true
  | _ => false

/-! Map insertion lemmas. -/

theorem lookupKey_append_none {α : Type} (k : String) (v : α) :
    ∀ l : List (String × α), lookupKey k l = none →
      lookupKey k (l ++ [(k, v)]) = some v := by
  intro l
  induction l with
  | nil =>
    intro _
    show (if k = k then some v else _) = some v
    rw [if_pos rfl]
  | cons p rest ih =>
    intro h
    obtain ⟨k2, w⟩ := p
    show (if k2 = k then some w else lookupKey k (rest ++ [(k, v)])) = some v
    have hk2 : ¬ k2 = k := by
      intro hk
      have : lookupKey k ((k2, w) :: rest) = some w := by
        show (if k2 = k then some w else _) = some w
        rw [if_pos hk]
      rw [this] at h
      exact Option.noConfusion h
    rw [if_neg hk2]
    apply ih
    have : lookupKey k ((k2, w) :: rest) = lookupKey k rest := by
      show (if k2 = k then some w else _) = _
      rw [if_neg hk2]
    rw [this] at h
    exact h

theorem lookupKey_append_ne {α : Type} (k k2 : String) (v : α) (h : k2 ≠ k) :
    ∀ l : List (String × α), lookupKey k2 (l ++ [(k, v)]) = lookupKey k2 l := by
  intro l
  induction l with
  | nil =>
    show (if k = k2 then some v else none) = none
    rw [if_neg (fun hk => h hk.symm)]
  | cons p rest ih =>
    obtain ⟨k3, w⟩ := p
    show (if k3 = k2 then some w else lookupKey k2 (rest ++ [(k, v)])) =
      (if k3 = k2 then some w else lookupKey k2 rest)
    by_cases hk : k3 = k2
    · rw [if_pos hk, if_pos hk]
    · rw [if_neg hk, if_neg hk, ih]

theorem lookupKey_insertKey_self {α : Type} (k : String) (v : α)
    (l : List (String × α)) : lookupKey k (insertKey k v l) = some v := by
  unfold insertKey
  by_cases h : (lookupKey k l).isSome
  · rw [if_pos h]
    exact lookupKey_setKey_self k v l h
  · rw [if_neg h]
    apply lookupKey_append_none
    rcases hcase : lookupKey k l with _ | w
    · rfl
    · rw [hcase] at h
      exact absurd rfl h
/-- Continue: insertion does not disturb other keys. -/
theorem lookupKey_insertKey_ne {α : Type} (k k2 : String) (v : α)
    (h : k2 ≠ k) (l : List (String × α)) :
    lookupKey k2 (insertKey k v l) = lookupKey k2 l := by
  unfold insertKey
  by_cases hs : (lookupKey k l).isSome
  · rw [if_pos hs]
    exact lookupKey_setKey_ne k k2 v h l
  · rw [if_neg hs]
    exact lookupKey_append_ne k k2 v h l

theorem eq_nil_of_lookupKey_none {α : Type} :
    ∀ l : List (String × α), (∀ k, lookupKey k l = none) → l = [] := by
  intro l
  cases l with
  | nil => intro _; rfl
  | cons p rest =>
    intro h
    obtain ⟨k2, w⟩ := p
    have := h k2
    have hcontra : lookupKey k2 ((k2, w) :: rest) = some w := by
      show (if k2 = k2 then some w else _) = some w
      rw [if_pos rfl]
    rw [hcontra] at this
    exact Option.noConfusion this

/-! The characterization of the build loop. -/

theorem registerAll_char {α β : Type} (mk : β → Option (Except String α))
    (key : β → String) :
    ∀ (items : List β) (acc : List (String × α)),
      (∀ b ∈ items, (mk b).isSome) →
      (items.map key).Nodup →
      (∀ b ∈ items, lookupKey (key b) acc = none) →
      ∃ m, registerAll mk key items acc = some m ∧
        (∀ b ∈ items, ∀ a, mk b = some (Except.ok a) →
          lookupKey (key b) m = some a) ∧
        (∀ k, (∀ b ∈ items,
            ¬ ((∃ a, mk b = some (Except.ok a)) ∧ key b = k)) →
          lookupKey k m = lookupKey k acc) := by
  intro items
  induction items with
  | nil =>
    intro acc _ _ _
    exact ⟨acc, rfl, fun b hb => absurd hb (List.not_mem_nil b),
      fun k _ => rfl⟩
  | cons b rest ih =>
    intro acc hsafe hnodup haccnone
    have hnodup2 : (rest.map key).Nodup := by
      rw [List.map_cons] at hnodup
      exact hnodup.of_cons
    have hkeyb : ∀ b2 ∈ rest, key b2 ≠ key b := by
      intro b2 hb2 heq
      rw [List.map_cons] at hnodup
      exact (List.nodup_cons.mp hnodup).1 (heq ▸ List.mem_map_of_mem key hb2)
    have hstep : registerAll mk key (b :: rest) acc =
        match mk b with
        | none => none
        | some (Except.error _) => registerAll mk key rest acc
        | some (Except.ok a) =>
          registerAll mk key rest (insertKey (key b) a acc) := rfl
    cases hmk : mk b with
    | none =>
      have hs := hsafe b (List.mem_cons_self _ _)
      rw [hmk] at hs
      exact absurd hs (by simp)
    | some r =>
      cases r with
      | error e =>
        obtain ⟨m, hm, h1, h2⟩ := ih acc
          (fun b2 hb2 => hsafe b2 (List.mem_cons_of_mem _ hb2)) hnodup2
          (fun b2 hb2 => haccnone b2 (List.mem_cons_of_mem _ hb2))
        refine ⟨m, ?_, ?_, ?_⟩
        · rw [hstep, hmk]
          exact hm
        · intro b2 hb2 a2 ha2
          rcases List.mem_cons.mp hb2 with rfl | hb2r
          · rw [hmk] at ha2
            exact Except.noConfusion (Option.some_injective _ ha2)
          · exact h1 b2 hb2r a2 ha2
        · intro k hk
          exact h2 k (fun b2 hb2 => hk b2 (List.mem_cons_of_mem _ hb2))
      | ok a =>
        have haccnone2 : ∀ b2 ∈ rest,
            lookupKey (key b2) (insertKey (key b) a acc) = none := by
          intro b2 hb2
          rw [lookupKey_insertKey_ne (key b) (key b2) a (hkeyb b2 hb2)]
          exact haccnone b2 (List.mem_cons_of_mem _ hb2)
        obtain ⟨m, hm, h1, h2⟩ := ih (insertKey (key b) a acc)
          (fun b2 hb2 => hsafe b2 (List.mem_cons_of_mem _ hb2)) hnodup2
          haccnone2
        refine ⟨m, ?_, ?_, ?_⟩
        · rw [hstep, hmk]
          exact hm
        · intro b2 hb2 a2 ha2
          rcases List.mem_cons.mp hb2 with rfl | hb2r
          · rw [hmk] at ha2
            obtain rfl : a = a2 :=
              Except.ok.inj (Option.some_injective _ ha2)
            have hmb : lookupKey (key b2) m =
                lookupKey (key b2) (insertKey (key b2) a acc) :=
              h2 (key b2)
                (fun b3 hb3 hcontra => hkeyb b3 hb3 hcontra.2)
            rw [hmb, lookupKey_insertKey_self]
          · exact h1 b2 hb2r a2 ha2
        · intro k hk
          have hbneq : key b ≠ k := by
            intro hkeq
            exact hk b (List.mem_cons_self _ _) ⟨⟨a, hmk⟩, hkeq⟩
          rw [h2 k (fun b2 hb2 => hk b2 (List.mem_cons_of_mem _ hb2)),
            lookupKey_insertKey_ne (key b) k a (Ne.symm hbneq)]

theorem registerAll_isSome {α β : Type} (mk : β → Option (Except String α))
    (key : β → String) :
    ∀ (items : List β) (acc : List (String × α)),
      (∀ b ∈ items, (mk b).isSome) →
      (registerAll mk key items acc).isSome := by
  intro items
  induction items with
  | nil => intro acc _; rfl
  | cons b rest ih =>
    intro acc hsafe
    have hstep : registerAll mk key (b :: rest) acc =
        match mk b with
        | none => none
        | some (Except.error _) => registerAll mk key rest acc
        | some (Except.ok a) =>
          registerAll mk key rest (insertKey (key b) a acc) := rfl
    cases hmk : mk b with
    | none =>
      have hs := hsafe b (List.mem_cons_self _ _)
      rw [hmk] at hs
      exact absurd hs (by simp)
    | some r =>
      cases r with
      | error e =>
        rw [hstep, hmk]
        exact ih acc (fun b2 hb2 => hsafe b2 (List.mem_cons_of_mem _ hb2))
      | ok a =>
        rw [hstep, hmk]
        exact ih _ (fun b2 hb2 => hsafe b2 (List.mem_cons_of_mem _ hb2))

theorem registerAll_no_ok {α β : Type} (mk : β → Option (Except String α))
    (key : β → String) :
    ∀ (items : List β) (acc : List (String × α)),
      (∀ b ∈ items, (mk b).isSome) →
      (∀ b ∈ items, ¬ ∃ a, mk b = some (Except.ok a)) →
      registerAll mk key items acc = some acc := by
  intro items
  induction items with
  | nil => intro acc _ _; rfl
  | cons b rest ih =>
    intro acc hsafe hnok
    have hstep : registerAll mk key (b :: rest) acc =
        match mk b with
        | none => none
        | some (Except.error _) => registerAll mk key rest acc
        | some (Except.ok a) =>
          registerAll mk key rest (insertKey (key b) a acc) := rfl
    cases hmk : mk b with
    | none =>
      have hs := hsafe b (List.mem_cons_self _ _)
      rw [hmk] at hs
      exact absurd hs (by simp)
    | some r =>
      cases r with
      | error e =>
        rw [hstep, hmk]
        exact ih acc (fun b2 hb2 => hsafe b2 (List.mem_cons_of_mem _ hb2))
          (fun b2 hb2 => hnok b2 (List.mem_cons_of_mem _ hb2))
      | ok a =>
        exact absurd ⟨a, hmk⟩ (hnok b (List.mem_cons_self _ _))

theorem subdeviceOkB_true_iff (env : Env) (sub : Subdevice) :
    subdeviceOkB env sub = true ↔
      ∃ a, addSubdevice env sub = some (Except.ok a) := by
  unfold subdeviceOkB
  cases h : addSubdevice env sub with
  | none => simp
  | some r =>
    cases r with
    | error e => simp
    | ok a => simp

/-- C3: under snapshots whose construction does not hit a runtime panic
and whose identifiers are distinct, a device none of whose subdevices
yields a successfully constructed adapter is never registered in the
accessory manager (its construction returns the "no services" error and
it is skipped), while a device with at least one successful subdevice is
registered, and its service map holds exactly the adapters of the
successful subdevices, keyed by their subdevice identifiers. -/
theorem C3_empty_device_never_registered (env : Env)
    (devices : List DeconzDevice) (cfg : DeconzDevice)
    (hmem : cfg ∈ devices)
    (hndup : (devices.map DeconzDevice.UniqueId).Nodup)
    (hsafe : ∀ d ∈ devices, ∀ sub ∈ d.Subdevices,
      (addSubdevice env sub).isSome) :
    ∃ am, NewAccessoryManager env devices = some am ∧
      ((∀ sub ∈ cfg.Subdevices, subdeviceOkB env sub = false) →
        lookupKey cfg.UniqueId am = none) ∧
      ((∃ sub ∈ cfg.Subdevices, subdeviceOkB env sub = true) →
        (cfg.Subdevices.map Subdevice.UniqueId).Nodup →
        ∃ d, lookupKey cfg.UniqueId am = some d ∧
          (∀ sub ∈ cfg.Subdevices, ∀ a,
            addSubdevice env sub = some (Except.ok a) →
            lookupKey sub.UniqueId d.Services = some a) ∧
          (∀ k, k ∉ (cfg.Subdevices.filter
              (subdeviceOkB env)).map Subdevice.UniqueId →
            lookupKey k d.Services = none)) := by
  have hsafeD : ∀ d ∈ devices, (NewDevice env d).isSome := by
    intro d hd
    unfold NewDevice
    have hs := registerAll_isSome (addSubdevice env) Subdevice.UniqueId
      d.Subdevices [] (hsafe d hd)
    obtain ⟨svc, hsvc⟩ := Option.isSome_iff_exists.mp hs
    rw [hsvc]
    rfl
  obtain ⟨am, ham, hA1, hA2⟩ := registerAll_char (NewDevice env)
    DeconzDevice.UniqueId devices [] hsafeD hndup (fun b _ => rfl)
  have hinj : ∀ dev ∈ devices, dev.UniqueId = cfg.UniqueId → dev = cfg := by
    intro dev hdev hdeq
    exact List.inj_on_of_nodup_map hndup hdev hmem hdeq
  refine ⟨am, ham, ?_, ?_⟩
  · intro hallfail
    have hnok : ∀ sub ∈ cfg.Subdevices,
        ¬ ∃ a, addSubdevice env sub = some (Except.ok a) := by
      intro sub hsub hex
      have := (subdeviceOkB_true_iff env sub).mpr hex
      rw [hallfail sub hsub] at this
      exact Bool.noConfusion this
    have hcempty : registerAll (addSubdevice env) Subdevice.UniqueId
        cfg.Subdevices [] = some [] :=
      registerAll_no_ok _ _ _ _ (hsafe cfg hmem) hnok
    have hnewdev : NewDevice env cfg = some (Except.error "no services found") := by
      unfold NewDevice
      rw [hcempty]
      rfl
    rw [hA2 cfg.UniqueId ?_]
    · rfl
    · intro dev hdev hcontra
      obtain ⟨⟨dd, hdd⟩, hdeq⟩ := hcontra
      obtain rfl : dev = cfg := hinj dev hdev hdeq
      rw [hnewdev] at hdd
      exact Except.noConfusion (Option.some_injective _ hdd)
  · intro hexists hnodsub
    obtain ⟨svc, hsvc, hB1, hB2⟩ := registerAll_char (addSubdevice env)
      Subdevice.UniqueId cfg.Subdevices [] (hsafe cfg hmem) hnodsub
      (fun b _ => rfl)
    obtain ⟨sub0, hsub0, hok0⟩ := hexists
    obtain ⟨a0, ha0⟩ := (subdeviceOkB_true_iff env sub0).mp hok0
    have hsvcne : svc ≠ [] := by
      intro hnil
      have := hB1 sub0 hsub0 a0 ha0
      rw [hnil] at this
      exact Option.noConfusion this
    have hnewdev : NewDevice env cfg =
        some (Except.ok ⟨cfg.UniqueId, svc⟩) := by
      unfold NewDevice
      rw [hsvc]
      show some (if svc = [] then Except.error "no services found"
        else Except.ok (⟨cfg.UniqueId, svc⟩ : Device)) = _
      rw [if_neg hsvcne]
    refine ⟨⟨cfg.UniqueId, svc⟩, hA1 cfg hmem _ hnewdev, hB1, ?_⟩
    intro k hk
    rw [hB2 k ?_]
    · rfl
    · intro sub hsub hcontra
      obtain ⟨⟨a, ha⟩, hseq⟩ := hcontra
      apply hk
      rw [← hseq]
      exact List.mem_map_of_mem Subdevice.UniqueId
        (List.mem_filter.mpr ⟨hsub, (subdeviceOkB_true_iff env sub).mpr ⟨a, ha⟩⟩)

/-! C3 witness material. -/

/-- Environment with no sensor details and no descriptor directory. -/
def env0ex : Env := ⟨fun _ => none, none⟩

/-- A supported on/off light subdevice. -/
def sub1ex : Subdevice := ⟨"On/Off light", "s1", [("on", JVal.jb true)], []⟩

/-- An unsupported subdevice (alarm sensors are not implemented). -/
def sub2ex : Subdevice := ⟨"ZHAAlarm", "s2", [], []⟩

/-- A device with one supported and one unsupported subdevice. -/
def dev1ex : DeconzDevice := ⟨"d1", [sub1ex, sub2ex]⟩

/-- A device whose only subdevice is unsupported. -/
def dev2ex : DeconzDevice := ⟨"d2", [sub2ex]⟩

/-- The example snapshot. -/
def devicesEx : List DeconzDevice := [dev1ex, dev2ex]

/-- C3 witness: in the two-device snapshot, the device with only an
unsupported subdevice is not registered, and the mixed device is
registered with exactly its one light adapter. -/
theorem C3_empty_device_never_registered_witness :
    (dev2ex ∈ devicesEx ∧ dev1ex ∈ devicesEx ∧
      (devicesEx.map DeconzDevice.UniqueId).Nodup ∧
      (∀ d ∈ devicesEx, ∀ sub ∈ d.Subdevices,
        (addSubdevice env0ex sub).isSome)) ∧
    (∃ am, NewAccessoryManager env0ex devicesEx = some am ∧
      ((∀ sub ∈ dev2ex.Subdevices, subdeviceOkB env0ex sub = false) →
        lookupKey dev2ex.UniqueId am = none) ∧
      ((∃ sub ∈ dev2ex.Subdevices, subdeviceOkB env0ex sub = true) →
        (dev2ex.Subdevices.map Subdevice.UniqueId).Nodup →
        ∃ d, lookupKey dev2ex.UniqueId am = some d ∧
          (∀ sub ∈ dev2ex.Subdevices, ∀ a,
            addSubdevice env0ex sub = some (Except.ok a) →
            lookupKey sub.UniqueId d.Services = some a) ∧
          (∀ k, k ∉ (dev2ex.Subdevices.filter
              (subdeviceOkB env0ex)).map Subdevice.UniqueId →
            lookupKey k d.Services = none))) ∧
    (∃ am, NewAccessoryManager env0ex devicesEx = some am ∧
      ((∀ sub ∈ dev1ex.Subdevices, subdeviceOkB env0ex sub = false) →
        lookupKey dev1ex.UniqueId am = none) ∧
      ((∃ sub ∈ dev1ex.Subdevices, subdeviceOkB env0ex sub = true) →
        (dev1ex.Subdevices.map Subdevice.UniqueId).Nodup →
        ∃ d, lookupKey dev1ex.UniqueId am = some d ∧
          (∀ sub ∈ dev1ex.Subdevices, ∀ a,
            addSubdevice env0ex sub = some (Except.ok a) →
            lookupKey sub.UniqueId d.Services = some a) ∧
          (∀ k, k ∉ (dev1ex.Subdevices.filter
              (subdeviceOkB env0ex)).map Subdevice.UniqueId →
            lookupKey k d.Services = none))) :=
  ⟨⟨by decide, by decide, by decide, by decide⟩,
    C3_empty_device_never_registered env0ex devicesEx dev2ex (by decide)
      (by decide) (by decide),
    C3_empty_device_never_registered env0ex devicesEx dev1ex (by decide)
      (by decide) (by decide)⟩

/-- The identifier list of end-to-end scenario 4. -/
def idsEx : List String :=
  ["1", "2", "3", "4", "5", "6", "7", "8", "9", "10"]

/-- A fetch that fails for three of the ten identifiers. -/
def fetchEx (id : String) : Option String :=
  if id = "3" ∨ id = "6" ∨ id = "9" then none else some id

/-- C10 witness: ten identifiers with three failing fetches yield a
seven-device snapshot and no overall error. -/
theorem C10_getAllDevices_partial_failures_witness :
    (GetAllDevices (some idsEx) fetchEx = some (idsEx.filterMap fetchEx) ∧
      (idsEx.filterMap fetchEx).length =
        idsEx.countP (fun id => (fetchEx id).isSome) ∧
      ∀ d ∈ idsEx.filterMap fetchEx, ∃ id ∈ idsEx, fetchEx id = some d) ∧
    (idsEx.filterMap fetchEx).length = 7 :=
  ⟨C10_getAllDevices_partial_failures idsEx fetchEx, by decide⟩
